import Mathlib

/-!
Verification development for the sun-polyp decoder heads
(`mmseg/models/decode_heads/elapformer_head.py` and
`mmseg/models/decode_heads/rcfpn_head.py`).

Feature maps are NCHW tensors; we model them as a shape together with an
integer-valued indexing function.  External building blocks supplied by the
surrounding framework (ConvModule, SELayer, LargeKernelAttn,
MultiScaleStripAttn, PAA_e, FSM's internal convolutions, F.interpolate) are
modelled as abstract functions; their shape contracts, when a theorem needs
them, are stated as explicit hypotheses.  Everything that lives in the two
repository files (the fusion loops, the resize helper, FusionNode's
dynamicFusion, the heads' forward orchestration and the construction-time
checks) is translated operation by operation.
-/

namespace SunPolyp

/-- An NCHW feature map: batch, channel, height, width and pixel data. -/
structure FeatureMap where
  batch : Nat
  chan : Nat
  height : Nat
  width : Nat
  data : Nat → Nat → Nat → Nat → Int

/-- `x.shape[-2:]`, the spatial size (H, W). -/
def FeatureMap.spatial (x : FeatureMap) : Nat × Nat := (x.height, x.width)

/-- Default feature map (used to totalise list indexing; Python raises there). -/
def FeatureMap.dflt : FeatureMap := ⟨0, 0, 0, 0, fun _ _ _ _ => 0⟩

instance : Inhabited FeatureMap := ⟨FeatureMap.dflt⟩

/-- `torch.cat([x, y], dim=1)`: channel concatenation, x's channels first. -/
def tcat (x y : FeatureMap) : FeatureMap :=
  { batch := x.batch
    chan := x.chan + y.chan
    height := x.height
    width := x.width
    data := fun b c i j => if c < x.chan then x.data b c i j else y.data b (c - x.chan) i j }

/-- `torch.cat(l, dim=1)` over a list of feature maps. -/
def torchCat : List FeatureMap → FeatureMap
  | [] => FeatureMap.dflt
  | x :: xs => xs.foldl tcat x

/-- Elementwise tensor addition (`a + b`); shapes taken from the first operand,
as in the shape-matched uses in the source. -/
def FeatureMap.add (x y : FeatureMap) : FeatureMap :=
  { x with data := fun b c i j => x.data b c i j + y.data b c i j }

instance : Add FeatureMap := ⟨FeatureMap.add⟩

/-- `F.pad(x, [0, padRight, 0, padBottom], 'replicate')`: pad on the right and
bottom, replicating the edge pixel. -/
def padReplicate (x : FeatureMap) (padRight padBottom : Nat) : FeatureMap :=
  { x with
    height := x.height + padBottom
    width := x.width + padRight
    data := fun b c i j => x.data b c (min i (x.height - 1)) (min j (x.width - 1)) }

/-- `F.max_pool2d(x, (2, 2))`: 2x2 max pooling with stride 2. -/
def maxPool2x2 (x : FeatureMap) : FeatureMap :=
  { x with
    height := x.height / 2
    width := x.width / 2
    data := fun b c i j =>
      max (max (x.data b c (2 * i) (2 * j)) (x.data b c (2 * i) (2 * j + 1)))
          (max (x.data b c (2 * i + 1) (2 * j)) (x.data b c (2 * i + 1) (2 * j + 1))) }

/-- Python tuple comparison `x.shape[-2:] < size` on (H, W): lexicographic. -/
def sizeLt (a b : Nat × Nat) : Bool :=
  decide (a.1 < b.1) || (decide (a.1 = b.1) && decide (a.2 < b.2))

/-- Type of the external interpolation primitive
`F.interpolate(x, size=s, ...)` / `mmseg.ops.resize`. -/
def Interp := FeatureMap → Nat × Nat → FeatureMap

/-- `FusionNode._resize` / `RPFNHead._resize` (identical code, differing only
in the interpolation call, which is the abstract parameter here): return
unchanged on size match, interpolate when (H, W) compares below the target,
otherwise pad bottom/right by (H mod 2, W mod 2) replicating edges and apply a
single 2x2 stride-2 max pooling. -/
def _resize (interp : Interp) (x : FeatureMap) (size : Nat × Nat) : FeatureMap :=
  if x.spatial = size then x
  else if sizeLt x.spatial size then interp x size
  else maxPool2x2 (padReplicate x (x.width % 2) (x.height % 2))

/-- `FusionNode`: the learned sub-modules (the FSM gates `weight`, the
pre/post fusion ConvModules) are abstract functions. -/
structure FusionNode where
  op_num : Nat
  with_out_conv : Bool
  weight : Nat → FeatureMap → FeatureMap
  pre_fusion : FeatureMap → FeatureMap
  post_fusion : FeatureMap → FeatureMap
  upsample : Interp

/-- `FusionNode.__init__`: asserts `op_num == 2 or op_num == 3`; then the
weight-initialisation block `for m in self.post_fusion.modules()` runs
whenever `out_conv_cfg is None or out_conv_cfg['type'] == 'Conv2d'`, even when
`with_out_conv` is false and `self.post_fusion` was never assigned, which
raises AttributeError.  `outCfgNoneOrConv2d` abstracts that configuration
test. -/
def FusionNode.init (op_num : Nat) (with_out_conv : Bool) (outCfgNoneOrConv2d : Bool)
    (weight : Nat → FeatureMap → FeatureMap)
    (pre_fusion post_fusion : FeatureMap → FeatureMap)
    (upsample : Interp) : Option FusionNode :=
  if op_num = 2 ∨ op_num = 3 then
    if with_out_conv = false ∧ outCfgNoneOrConv2d = true then none
    else some ⟨op_num, with_out_conv, weight, pre_fusion, post_fusion, upsample⟩
  else none

/-- `FusionNode.dynamicFusion`: gate operands 0 and 1 with `weight[0]` and
`weight[1]` and sum; when `op_num == 3`, gate operand 2 with `weight[1]`
again, pass the 2-operand sum through `pre_fusion` and add; finally apply
`post_fusion` when `with_out_conv` is set. -/
def FusionNode.dynamicFusion (n : FusionNode) (x : List FeatureMap) : FeatureMap :=
  let x1 := n.weight 0 (x.getD 0 FeatureMap.dflt)
  let x2 := n.weight 1 (x.getD 1 FeatureMap.dflt)
  let result := x1 + x2
  let result :=
    if n.op_num = 3 then
      let x3 := n.weight 1 (x.getD 2 FeatureMap.dflt)
      let x1 := n.pre_fusion result
      x1 + x3
    else result
  if n.with_out_conv then n.post_fusion result else result

/-- `FusionNode.forward`: resize every input to `out_size`, then fuse. -/
def FusionNode.forward (n : FusionNode) (x : List FeatureMap) (out_size : Nat × Nat) :
    FeatureMap :=
  n.dynamicFusion (x.map (fun feat => _resize n.upsample feat out_size))

/-- The learned/external sub-modules of `RPFNHead`, passed to its
constructor: `outCfgNoneOrConv2d` abstracts
`out_conv_cfg is None or out_conv_cfg['type'] == 'Conv2d'`;
`lateral` are the `PAA_e` lateral convolutions; `weightP*`, `preP*`, `postP*`
are each node's FSM gates and pre/post fusion convolutions; `upsample` is the
interpolation used inside the nodes and `interp` the bilinear interpolation
of `RPFNHead._resize`; `fusion_conv` and `cls_seg` close the head. -/
structure RPFNCfg where
  outCfgNoneOrConv2d : Bool
  lateral : Nat → FeatureMap → FeatureMap
  weightP3 : Nat → FeatureMap → FeatureMap
  weightP4 : Nat → FeatureMap → FeatureMap
  weightP5 : Nat → FeatureMap → FeatureMap
  weightP6 : Nat → FeatureMap → FeatureMap
  preP3 : FeatureMap → FeatureMap
  preP4 : FeatureMap → FeatureMap
  preP5 : FeatureMap → FeatureMap
  preP6 : FeatureMap → FeatureMap
  postP3 : FeatureMap → FeatureMap
  postP4 : FeatureMap → FeatureMap
  postP5 : FeatureMap → FeatureMap
  postP6 : FeatureMap → FeatureMap
  fusion_conv : FeatureMap → FeatureMap
  cls_seg : FeatureMap → FeatureMap
  upsample : Interp
  interp : Interp

/-- `RPFNHead` after construction: four fusion nodes keyed p3..p6 plus the
lateral projections, the 1x1 fusion convolution and the classifier. -/
structure RPFNHead where
  lateral : Nat → FeatureMap → FeatureMap
  p3 : FusionNode
  p4 : FusionNode
  p5 : FusionNode
  p6 : FusionNode
  fusion_conv : FeatureMap → FeatureMap
  cls_seg : FeatureMap → FeatureMap
  interp : Interp

/-- `RPFNHead.__init__` (with the default `start_level=0`, `end_level=-1`,
4 input levels): builds the four `FusionNode`s `p6, p5, p4, p3`, every one of
them with `op_num=2` and default `with_out_conv=True`, exactly as in lines
207-233 of `rcfpn_head.py`. -/
def RPFNHead.init (cfg : RPFNCfg) : Option RPFNHead := do
  let p6 ← FusionNode.init 2 true cfg.outCfgNoneOrConv2d cfg.weightP6 cfg.preP6 cfg.postP6
    cfg.upsample
  let p5 ← FusionNode.init 2 true cfg.outCfgNoneOrConv2d cfg.weightP5 cfg.preP5 cfg.postP5
    cfg.upsample
  let p4 ← FusionNode.init 2 true cfg.outCfgNoneOrConv2d cfg.weightP4 cfg.preP4 cfg.postP4
    cfg.upsample
  let p3 ← FusionNode.init 2 true cfg.outCfgNoneOrConv2d cfg.weightP3 cfg.preP3 cfg.postP3
    cfg.upsample
  some ⟨cfg.lateral, p3, p4, p5, p6, cfg.fusion_conv, cfg.cls_seg, cfg.interp⟩

/-- `p3 = self.RevFP['p3']([c3, c4], out_size=c3.shape[-2:])`. -/
def RPFNHead.p3val (H : RPFNHead) (c3 c4 : FeatureMap) : FeatureMap :=
  H.p3.forward [c3, c4] c3.spatial

/-- `p4 = self.RevFP['p4']([c4, c5, p3], out_size=c4.shape[-2:])`. -/
def RPFNHead.p4val (H : RPFNHead) (c4 c5 p3 : FeatureMap) : FeatureMap :=
  H.p4.forward [c4, c5, p3] c4.spatial

/-- `p5 = self.RevFP['p5']([c5, c6, p4], out_size=c5.shape[-2:])`. -/
def RPFNHead.p5val (H : RPFNHead) (c5 c6 p4 : FeatureMap) : FeatureMap :=
  H.p5.forward [c5, c6, p4] c5.spatial

/-- `p6 = self.RevFP['p6']([c6, p5], out_size=c6.shape[-2:])`. -/
def RPFNHead.p6val (H : RPFNHead) (c6 p5 : FeatureMap) : FeatureMap :=
  H.p6.forward [c6, p5] c6.spatial

/-- `RPFNHead.forward`: lateral projections, the fixed p3-p6 fusion order,
resize p4/p5/p6 to p3's resolution, concatenate, 1x1 fuse, classify, and wrap
the single output in a list. -/
def RPFNHead.forward (H : RPFNHead) (inputs : List FeatureMap) : List FeatureMap :=
  let feats := (List.range 4).map fun i => H.lateral i (inputs.getD i FeatureMap.dflt)
  let c3 := feats.getD 0 FeatureMap.dflt
  let c4 := feats.getD 1 FeatureMap.dflt
  let c5 := feats.getD 2 FeatureMap.dflt
  let c6 := feats.getD 3 FeatureMap.dflt
  let p3 := H.p3val c3 c4
  let p4 := H.p4val c4 c5 p3
  let p5 := H.p5val c5 c6 p4
  let p6 := H.p6val c6 p5
  let p4 := _resize H.interp p4 c3.spatial
  let p5 := _resize H.interp p5 c3.spatial
  let p6 := _resize H.interp p6 c3.spatial
  let output := H.fusion_conv (torchCat [p3, p4, p5, p6])
  [H.cls_seg output]

/-- The learned/external sub-modules of an ELAPFormerHead-family (PPF) head:
`convs` are the per-level 3x3 projections, `linear_projections` the pairwise
1x1 fusers (indexed as the ModuleList), `sep_conv` the v1/v2 separable pair,
`se_module`/`fusion_conv`/`cls_seg` the aggregation stage and `interp` the
`mmseg.ops.resize` interpolation. -/
structure PPFParams where
  convs : Nat → FeatureMap → FeatureMap
  linear_projections : Nat → FeatureMap → FeatureMap
  sep_conv : Nat → FeatureMap → FeatureMap
  se_module : FeatureMap → FeatureMap
  fusion_conv : FeatureMap → FeatureMap
  cls_seg : FeatureMap → FeatureMap
  interp : Interp

/-- `ELAPFormerHead.__init__` boiled down to its construction check
`assert num_inputs == len(self.in_index)` with
`num_inputs = len(self.in_channels)`; on success the head's sub-modules are
built. -/
def ELAPFormerHead.init (in_channels in_index : List Nat) (P : PPFParams) :
    Option PPFParams :=
  if in_channels.length = in_index.length then some P else none

/-- The per-level projection/alignment loop shared by the PPF heads:
project every level with its 3x3 conv and resize levels 1.. to the spatial
size of `inputs[1]`. -/
def alignLevels (P : PPFParams) (inputs : List FeatureMap) : List FeatureMap :=
  (List.range inputs.length).map fun idx =>
    let x := inputs.getD idx FeatureMap.dflt
    let feat := P.convs idx x
    if idx > 0 then P.interp feat (inputs.getD 1 FeatureMap.dflt).spatial else feat

/-- The v3/v4 per-level projection/alignment loop: same as `alignLevels` but
with the extra guard `if idx == len(inputs): feat = attn(feat)` applying the
attention module (`lka` for v3, `mssa` for v4). -/
def alignLevelsAttn (P : PPFParams) (attn : FeatureMap → FeatureMap)
    (inputs : List FeatureMap) : List FeatureMap :=
  (List.range inputs.length).map fun idx =>
    let x := inputs.getD idx FeatureMap.dflt
    let feat := P.convs idx x
    let feat := if idx > 0 then P.interp feat (inputs.getD 1 FeatureMap.dflt).spatial else feat
    if idx = inputs.length then attn feat else feat

/-- The index sequence of `for idx in range(n - 1, 0, -1)`. -/
def loopIndices (n : Nat) : List Nat := (List.range' 1 (n - 1)).reverse

/-- One iteration of the progressive-fusion loop, operating on the state
`(_out, outs)`: choose `x1` (the two coarsest aligned levels on the first
iteration, the accumulator `_out` afterwards) and `x2 = _inputs[idx-1]`,
resize `x1` to `x2`'s size when `idx == 1`, concatenate `[x1, x2]`, project
with `linear_projections[idx-1]`; then either append the projection to
`outs`, or (separable variants, at `idx == 1`) emit the two `sep_conv`
branches, the first resized to `sepSize = inputs[1].shape[2:]`. -/
def ppfStep (P : PPFParams) (sep : Bool) (ins : List FeatureMap) (sepSize : Nat × Nat)
    (st : FeatureMap × List FeatureMap) (idx : Nat) : FeatureMap × List FeatureMap :=
  let _out := st.1
  let outs := st.2
  let x1 := if idx = ins.length - 1 then ins.getD idx FeatureMap.dflt else _out
  let x2 := ins.getD (idx - 1) FeatureMap.dflt
  let x1 := if idx = 1 then P.interp x1 x2.spatial else x1
  let x := tcat x1 x2
  let _out := P.linear_projections (idx - 1) x
  if sep ∧ idx = 1 then
    let s1 := P.interp (P.sep_conv 0 _out) sepSize
    let s2 := P.sep_conv 1 _out
    (_out, outs ++ [s1, s2])
  else
    (_out, outs ++ [_out])

/-- The progressive-fusion loop of the PPF heads over the aligned levels
`ins`: state starts as the `torch.empty` placeholder `junk` and
`outs = [_inputs[-1]]`, and the loop runs over `range(len(ins) - 1, 0, -1)`. -/
def ppfFuse (P : PPFParams) (sep : Bool) (junk : FeatureMap) (ins : List FeatureMap)
    (sepSize : Nat × Nat) : FeatureMap × List FeatureMap :=
  (loopIndices ins.length).foldl (ppfStep P sep ins sepSize) (junk, [ins.getLastD junk])

/-- `ELAPFormerHead.forward` (v1; v2 has the same orchestration with a
different first separable branch): align, fuse with the separable branch,
concatenate `outs[:4]`, SE-gate, 1x1 fuse, resize to `outs[-1]` and add it as
residual, classify.  `junk` is the uninitialised `torch.empty` placeholder. -/
def ELAPFormerHead.forward (P : PPFParams) (junk : FeatureMap)
    (inputs : List FeatureMap) : FeatureMap :=
  let _inputs := alignLevels P inputs
  let r := ppfFuse P true junk _inputs (inputs.getD 1 FeatureMap.dflt).spatial
  let outs := r.2
  let out := torchCat (outs.take 4)
  let out := P.se_module out
  let out := P.fusion_conv out
  let out := P.interp out (outs.getLastD FeatureMap.dflt).spatial
  let out := (outs.getLastD FeatureMap.dflt) + out
  P.cls_seg out

/-- `ELAPFormerHead_v3.forward` (v4 is identical with `mssa` in place of
`lka`, both abstracted as `attn`): align with the `idx == len(inputs)` guard,
fuse without the separable branch, concatenate `outs[:3]`, SE-gate, 1x1 fuse,
resize to `_inputs[0]`'s size, add `outs[-1]` as residual, classify. -/
def ELAPFormerHead_v3.forward (P : PPFParams) (attn : FeatureMap → FeatureMap)
    (junk : FeatureMap) (inputs : List FeatureMap) : FeatureMap :=
  let _inputs := alignLevelsAttn P attn inputs
  let r := ppfFuse P false junk _inputs (inputs.getD 1 FeatureMap.dflt).spatial
  let outs := r.2
  let out := torchCat (outs.take 3)
  let out := P.se_module out
  let out := P.fusion_conv out
  let out := P.interp out (_inputs.getD 0 FeatureMap.dflt).spatial
  let out := (outs.getLastD FeatureMap.dflt) + out
  P.cls_seg out

/-! Concrete instantiations used to evaluate the development on explicit
inputs: identity-shaped stand-ins for the abstract learned modules. -/

/-- A constant-data feature map of the given shape. -/
def fm (b c h w : Nat) : FeatureMap := ⟨b, c, h, w, fun _ _ _ _ => 0⟩

/-- Identity module. -/
def idMod : FeatureMap → FeatureMap := fun x => x

/-- Indexed family of identity modules. -/
def idMod2 : Nat → FeatureMap → FeatureMap := fun _ x => x

/-- A concrete interpolation: keep data, set the target spatial size. -/
def interpId : Interp := fun x s => { x with height := s.1, width := s.2 }

/-- A module setting the channel count (a concrete stand-in for a
convolution `C_in -> c`). -/
def chanTo (c : Nat) : FeatureMap → FeatureMap := fun x => { x with chan := c }

/-- Identity-shaped PPF parameter set. -/
def Pc : PPFParams := ⟨idMod2, idMod2, idMod2, idMod, idMod, idMod, interpId⟩

/-- Shape-realistic PPF parameter set: all convolutions map to 128 channels,
the classifier maps to 19 channels. -/
def PcShape : PPFParams :=
  ⟨fun _ => chanTo 128, fun _ => chanTo 128, fun _ => chanTo 128, idMod,
   chanTo 128, chanTo 19, interpId⟩

/-- Identity-shaped RPFN configuration. -/
def rpfnCfgC : RPFNCfg :=
  ⟨true, idMod2, idMod2, idMod2, idMod2, idMod2, idMod, idMod, idMod, idMod,
   idMod, idMod, idMod, idMod, idMod, idMod, interpId, interpId⟩

/-- A concrete 4-level pyramid with distinguishable level heights. -/
def insC : List FeatureMap := [fm 1 8 77 77, fm 1 8 40 40, fm 1 8 20 20, fm 1 8 9 9]

/-- A stand-in for the `torch.empty(_inputs[1].shape)` placeholder. -/
def junkC : FeatureMap := fm 1 8 40 40

/-! Shape contracts for the external building blocks (spec section 6: the
resize primitive matches the target spatial size; attention modules are
channel- and spatial-shape-preserving; convolutions map to a configured
channel width at unchanged spatial size for the 3x3-pad-1 and 1x1 cases used
here). -/

/-- `f` maps any input to `cOut` channels, preserving batch and spatial size. -/
def ChanMap (f : FeatureMap → FeatureMap) (cOut : Nat) : Prop :=
  ∀ x, (f x).batch = x.batch ∧ (f x).chan = cOut ∧
    (f x).height = x.height ∧ (f x).width = x.width

/-- `f` preserves the full shape. -/
def ShapePres (f : FeatureMap → FeatureMap) : Prop :=
  ∀ x, (f x).batch = x.batch ∧ (f x).chan = x.chan ∧
    (f x).height = x.height ∧ (f x).width = x.width

/-- The external interpolation contract: batch and channels preserved,
spatial size set to the target. -/
def InterpShape (g : Interp) : Prop :=
  ∀ x s, (g x s).batch = x.batch ∧ (g x s).chan = x.chan ∧
    (g x s).height = s.1 ∧ (g x s).width = s.2

/-! Projection lemmas for the concrete tensor primitives, and the
closed-form evaluation of the 4-level progressive-fusion loop. -/

@[simp] theorem add_batch (x y : FeatureMap) : (x + y).batch = x.batch := rfl

@[simp] theorem add_chan (x y : FeatureMap) : (x + y).chan = x.chan := rfl

@[simp] theorem add_height (x y : FeatureMap) : (x + y).height = x.height := rfl

@[simp] theorem add_width (x y : FeatureMap) : (x + y).width = x.width := rfl

@[simp] theorem tcat_batch (x y : FeatureMap) : (tcat x y).batch = x.batch := rfl

@[simp] theorem tcat_chan (x y : FeatureMap) : (tcat x y).chan = x.chan + y.chan := rfl

@[simp] theorem tcat_height (x y : FeatureMap) : (tcat x y).height = x.height := rfl

@[simp] theorem tcat_width (x y : FeatureMap) : (tcat x y).width = x.width := rfl

/-- Closed form of the progressive-fusion loop on a 4-level aligned pyramid:
the accumulator chains `prj 2 (cat i3 i2)`, `prj 1 (cat acc i1)`,
`prj 0 (cat (resize acc) i0)`, and `outs` collects `[i3]` plus one entry per
iteration (two separable entries at the finest iteration when `sep`). -/
theorem ppfFuse_eq (P : PPFParams) (sep : Bool) (junk i0 i1 i2 i3 : FeatureMap)
    (sz : Nat × Nat) :
    ppfFuse P sep junk [i0, i1, i2, i3] sz =
      ((P.linear_projections 0 (tcat (P.interp (P.linear_projections 1
          (tcat (P.linear_projections 2 (tcat i3 i2)) i1)) i0.spatial) i0)),
       if sep then
         [i3, P.linear_projections 2 (tcat i3 i2),
          P.linear_projections 1 (tcat (P.linear_projections 2 (tcat i3 i2)) i1),
          P.interp (P.sep_conv 0 (P.linear_projections 0 (tcat (P.interp
            (P.linear_projections 1 (tcat (P.linear_projections 2 (tcat i3 i2)) i1))
            i0.spatial) i0))) sz,
          P.sep_conv 1 (P.linear_projections 0 (tcat (P.interp (P.linear_projections 1
            (tcat (P.linear_projections 2 (tcat i3 i2)) i1)) i0.spatial) i0))]
       else
         [i3, P.linear_projections 2 (tcat i3 i2),
          P.linear_projections 1 (tcat (P.linear_projections 2 (tcat i3 i2)) i1),
          P.linear_projections 0 (tcat (P.interp (P.linear_projections 1
            (tcat (P.linear_projections 2 (tcat i3 i2)) i1)) i0.spatial) i0)]) := by
  cases sep <;> rfl

/-- The `torch.empty` placeholder does not influence a 4-level fusion run. -/
theorem ppfFuse_junk (P : PPFParams) (sep : Bool) (j1 j2 i0 i1 i2 i3 : FeatureMap)
    (sz : Nat × Nat) :
    ppfFuse P sep j1 [i0, i1, i2, i3] sz = ppfFuse P sep j2 [i0, i1, i2, i3] sz := by
  rw [ppfFuse_eq, ppfFuse_eq]

/-- C2 counterexample: on a concrete 4-level pyramid, the non-separable
(v3-style) fusion run over the aligned levels produces an `outs` list of
exactly 4 elements — not 5 or 6 — after a loop of 3 iterations — not 4 —
and the initial `outs` entry is the coarsest aligned level (height 40, the
common aligned resolution), not the finest aligned level (height 77). -/
theorem ppf_outs_claim_counterexample :
    ((ppfFuse Pc false junkC (alignLevels Pc insC) (40, 40)).2.length = 4) ∧
    ¬(((ppfFuse Pc false junkC (alignLevels Pc insC) (40, 40)).2.length = 5) ∨
      ((ppfFuse Pc false junkC (alignLevels Pc insC) (40, 40)).2.length = 6)) ∧
    ((loopIndices (alignLevels Pc insC).length).length = 3) ∧
    (((ppfFuse Pc false junkC (alignLevels Pc insC) (40, 40)).2.getD 0
        FeatureMap.dflt).height = 40) ∧
    (((alignLevels Pc insC).getD 0 FeatureMap.dflt).height = 77) := by
  refine ⟨rfl, by decide, rfl, rfl, rfl⟩

/-- C2 (amended): for every 4-level aligned pyramid, the `outs` fusion list
starts as the single-element sequence holding the coarsest aligned level
`_inputs[-1]`, the pairwise-fuser loop runs over the 3 indices `[3, 2, 1]`,
and `outs` ends with exactly 5 elements for the separable-branch variants
(v1/v2, which emit 2 entries at the finest iteration) and exactly 4
elements otherwise (v3-v8). -/
theorem ppf_outs_evolution (P : PPFParams) (sep : Bool) (junk i0 i1 i2 i3 : FeatureMap)
    (sz : Nat × Nat) :
    ((ppfFuse P sep junk [i0, i1, i2, i3] sz).2.length = if sep then 5 else 4) ∧
    ((ppfFuse P sep junk [i0, i1, i2, i3] sz).2.getD 0 FeatureMap.dflt = i3) ∧
    loopIndices 4 = [3, 2, 1] := by
  cases sep <;> simp [ppfFuse_eq] <;> rfl

/-- C3: in `ELAPFormerHead_v3.forward` (and identically v4, whose loop is the
same function applied to `mssa` instead of `lka`), the guard
`idx == len(inputs)` in the per-level projection loop is never satisfied, so
the attention module is never applied: the aligned levels equal those of the
guard-free loop, and the whole forward result does not depend on the
attention module at all. -/
theorem v3_v4_attn_never_applied (P : PPFParams) (attn attn' : FeatureMap → FeatureMap)
    (junk : FeatureMap) (inputs : List FeatureMap) :
    alignLevelsAttn P attn inputs = alignLevels P inputs ∧
    ELAPFormerHead_v3.forward P attn junk inputs
      = ELAPFormerHead_v3.forward P attn' junk inputs := by
  have h : ∀ a : FeatureMap → FeatureMap, alignLevelsAttn P a inputs = alignLevels P inputs := by
    intro a
    unfold alignLevelsAttn alignLevels
    apply List.map_congr_left
    intro idx hidx
    have hlt : idx < inputs.length := List.mem_range.mp hidx
    simp [Nat.ne_of_lt hlt]
  exact ⟨h attn, by simp only [ELAPFormerHead_v3.forward, h]⟩

/-- C5: the shared resize helper (`FusionNode._resize` and `RPFNHead._resize`,
identical up to the interpolation primitive `interp`): on an exact spatial
match the input is returned unchanged; when the (H, W) pair compares below
the target it is handed to interpolation (which, by the resize primitive's
contract, yields exactly the target size); otherwise it is padded on the
bottom/right by (H mod 2, W mod 2) with edge replication and reduced by one
2x2 stride-2 max pooling, which only halves each dimension (rounding up), so
a single call stays strictly above a target more than 2x smaller. -/
theorem resize_policy (interp : Interp) (x : FeatureMap) (s : Nat × Nat) :
    (x.spatial = s → _resize interp x s = x) ∧
    (x.spatial ≠ s → sizeLt x.spatial s = true → _resize interp x s = interp x s) ∧
    (x.spatial ≠ s → sizeLt x.spatial s = true →
      (∀ y t, (interp y t).spatial = t) → (_resize interp x s).spatial = s) ∧
    (x.spatial ≠ s → sizeLt x.spatial s = false →
      _resize interp x s = maxPool2x2 (padReplicate x (x.width % 2) (x.height % 2)) ∧
      (_resize interp x s).height = (x.height + x.height % 2) / 2 ∧
      (_resize interp x s).width = (x.width + x.width % 2) / 2 ∧
      (2 * s.1 < x.height → s.1 < (_resize interp x s).height) ∧
      (2 * s.2 < x.width → s.2 < (_resize interp x s).width)) := by
  refine ⟨fun h => ?_, fun h hlt => ?_, fun h hlt hc => ?_, fun h hlt => ?_⟩
  · simp [_resize, h]
  · simp [_resize, h, hlt]
  · simp [_resize, h, hlt, hc]
  · have he : _resize interp x s
        = maxPool2x2 (padReplicate x (x.width % 2) (x.height % 2)) := by
      simp [_resize, h, hlt]
    refine ⟨he, ?_, ?_, fun hh => ?_, fun hw => ?_⟩
    · rw [he]; rfl
    · rw [he]; rfl
    · rw [he]; show s.1 < (x.height + x.height % 2) / 2; omega
    · rw [he]; show s.2 < (x.width + x.width % 2) / 2; omega

/-- C5 witness: the three branches at concrete inputs: a (2,2) map returned
unchanged at target (2,2); a (1,1) map interpolated to (2,2); a (5,4) map
pad-pooled to (3,2), strictly above the (2,2) target in height. -/
theorem resize_policy_witness :
    (_resize interpId (fm 1 3 2 2) (2, 2) = fm 1 3 2 2) ∧
    (_resize interpId (fm 1 3 1 1) (2, 2) = interpId (fm 1 3 1 1) (2, 2)) ∧
    ((_resize interpId (fm 1 3 1 1) (2, 2)).spatial = (2, 2)) ∧
    (_resize interpId (fm 1 3 5 4) (2, 2)
      = maxPool2x2 (padReplicate (fm 1 3 5 4) 0 1)) ∧
    ((_resize interpId (fm 1 3 5 4) (2, 2)).height = 3) ∧
    (2 < (_resize interpId (fm 1 3 5 4) (2, 2)).height) := by
  refine ⟨(resize_policy interpId (fm 1 3 2 2) (2, 2)).1 rfl,
    (resize_policy interpId (fm 1 3 1 1) (2, 2)).2.1 (by decide) (by decide),
    (resize_policy interpId (fm 1 3 1 1) (2, 2)).2.2.1 (by decide) (by decide)
      (fun y t => rfl),
    ((resize_policy interpId (fm 1 3 5 4) (2, 2)).2.2.2 (by decide) (by decide)).1,
    ((resize_policy interpId (fm 1 3 5 4) (2, 2)).2.2.2 (by decide) (by decide)).2.1,
    ((resize_policy interpId (fm 1 3 5 4) (2, 2)).2.2.2 (by decide) (by decide)).2.2.2.1
      (by decide)⟩

/-- C6: a `FusionNode` constructed with `op_num == 3` fuses
`[x0, x1, x2]` as `pre_fusion(weight[0](x0) + weight[1](x1)) + weight[1](x2)`
— operand 2 is gated with the same FSM gate of index 1 that gated operand 1,
and the constructed gate of index 2 is not applied — followed by the
post-fusion convolution exactly when `with_out_conv` is set. -/
theorem fusionnode_op3_formula (b : Bool) (g : Nat → FeatureMap → FeatureMap)
    (pre post : FeatureMap → FeatureMap) (up : Interp) (x0 x1 x2 : FeatureMap) :
    ((FusionNode.init 3 true b g pre post up).map
        fun n => n.dynamicFusion [x0, x1, x2])
      = some (post (pre (g 0 x0 + g 1 x1) + g 1 x2)) ∧
    ((FusionNode.init 3 false false g pre post up).map
        fun n => n.dynamicFusion [x0, x1, x2])
      = some (pre (g 0 x0 + g 1 x1) + g 1 x2) := by
  constructor <;> simp [FusionNode.init, FusionNode.dynamicFusion]

/-- C7: on a 4-level aligned pyramid the accumulator of the pairwise-fuser
loop (shared by all ELAPFormerHead variants; the separable flag only affects
the emitted list) is the chain of projections in which every concatenation
is `[coarser-or-accumulated, finer]`: `cat i3 i2`, then `cat acc i1`, then
`cat (resize acc) i0`; and `tcat` places its first operand's channels first. -/
theorem ppf_concat_order (P : PPFParams) (sep : Bool) (junk i0 i1 i2 i3 : FeatureMap)
    (sz : Nat × Nat) :
    ((ppfFuse P sep junk [i0, i1, i2, i3] sz).1 =
      P.linear_projections 0 (tcat
        (P.interp (P.linear_projections 1
          (tcat (P.linear_projections 2 (tcat i3 i2)) i1)) i0.spatial) i0)) ∧
    (∀ a b2 : FeatureMap, ∀ bi c i j, (tcat a b2).data bi c i j =
      if c < a.chan then a.data bi c i j else b2.data bi (c - a.chan) i j) ∧
    (∀ a b2 : FeatureMap, (tcat a b2).chan = a.chan + b2.chan) := by
  exact ⟨by rw [ppfFuse_eq], fun a b2 bi c i j => rfl, fun a b2 => rfl⟩

/-- C10: the `torch.empty` placeholder `_out` is overwritten before it is
read: the first loop iteration (`idx = 3` for a 4-level pyramid) computes the
projection from `_inputs` alone, and the whole fusion run is unchanged under
any alteration of the placeholder's contents. -/
theorem ppf_placeholder_never_read (P : PPFParams) (sep : Bool)
    (j1 j2 i0 i1 i2 i3 : FeatureMap) (sz : Nat × Nat) (outs : List FeatureMap) :
    (ppfFuse P sep j1 [i0, i1, i2, i3] sz = ppfFuse P sep j2 [i0, i1, i2, i3] sz) ∧
    ((ppfStep P sep [i0, i1, i2, i3] sz (j1, outs) 3).1
      = P.linear_projections 2 (tcat i3 i2)) := by
  refine ⟨ppfFuse_junk P sep j1 j2 i0 i1 i2 i3 sz, ?_⟩
  simp [ppfStep]

/-- C1: as constructed by `RPFNHead.__init__` every fusion node has
`op_num = 2`, so `dynamicFusion` never reads a third operand: the node
outputs `p4` and `p5` computed in `RPFNHead.forward` are two-operand fusions
that ignore the predecessor outputs `p3` and `p4` passed to them — contrary
to the intended `p4 = Fuse3(c4, c5, p3)`, `p5 = Fuse3(c5, c6, p4)` chain.
The third conjunct exhibits `p4`'s actual value: a fusion of `c4` and `c5`
alone. -/
theorem rpfn_p4_p5_ignore_predecessor (cfg : RPFNCfg)
    (c4 c5 c6 p3 p3' p4 p4' : FeatureMap) :
    (((RPFNHead.init cfg).map fun H => H.p4val c4 c5 p3)
      = ((RPFNHead.init cfg).map fun H => H.p4val c4 c5 p3')) ∧
    (((RPFNHead.init cfg).map fun H => H.p5val c5 c6 p4)
      = ((RPFNHead.init cfg).map fun H => H.p5val c5 c6 p4')) ∧
    (((RPFNHead.init cfg).map fun H => H.p4val c4 c5 p3)
      = some (cfg.postP4 (cfg.weightP4 0 (_resize cfg.upsample c4 c4.spatial)
          + cfg.weightP4 1 (_resize cfg.upsample c5 c4.spatial)))) := by
  refine ⟨?_, ?_, ?_⟩ <;>
    simp [RPFNHead.init, FusionNode.init, RPFNHead.p4val, RPFNHead.p5val,
      FusionNode.forward, FusionNode.dynamicFusion, Option.bind]

/-- C8 counterexample: a `FusionNode` constructed with a valid `op_num = 2`
but `with_out_conv=False` under the default output-conv configuration fails
at construction (the weight-initialisation block dereferences the
never-assigned `post_fusion`), refuting "construction succeeds when these
conditions hold". -/
theorem fusionnode_init_fails_despite_valid_opnum :
    (FusionNode.init 2 false true idMod2 idMod idMod interpId = none) ∧ (2 = 2 ∨ 2 = 3) := by
  exact ⟨by simp [FusionNode.init], Or.inl rfl⟩

/-- C8 (amended): configuration errors are raised at construction time: a PPF
head constructs successfully exactly when the input-channel list and the
index-selector list have equal length, and a `FusionNode` constructs
successfully exactly when `op_num` is 2 or 3 AND additionally
(`with_out_conv` is set, or the output-conv configuration is neither absent
nor of Conv2d type — otherwise the initialisation block dereferences the
missing `post_fusion` and construction fails despite a valid `op_num`). -/
theorem construction_checks (in_channels in_index : List Nat) (P : PPFParams)
    (op_num : Nat) (woc cfgF : Bool) (g : Nat → FeatureMap → FeatureMap)
    (pre post : FeatureMap → FeatureMap) (up : Interp) :
    ((ELAPFormerHead.init in_channels in_index P).isSome
      ↔ in_channels.length = in_index.length) ∧
    ((FusionNode.init op_num woc cfgF g pre post up).isSome
      ↔ ((op_num = 2 ∨ op_num = 3) ∧ (woc = true ∨ cfgF = false))) := by
  constructor
  · unfold ELAPFormerHead.init
    split <;> simp_all
  · unfold FusionNode.init
    cases woc <;> cases cfgF <;> split <;> simp_all

/-- C9: forward passes are deterministic: with identical parameters and
identical inputs the PPF heads (even across different contents of the
uninitialised `torch.empty` placeholder, the only nondeterministic source in
the code) and the RPFN head produce identical outputs. -/
theorem forward_deterministic (P : PPFParams) (attn : FeatureMap → FeatureMap)
    (j1 j2 i0 i1 i2 i3 : FeatureMap) (H : RPFNHead) (xs : List FeatureMap) :
    (ELAPFormerHead.forward P j1 [i0, i1, i2, i3]
      = ELAPFormerHead.forward P j2 [i0, i1, i2, i3]) ∧
    (ELAPFormerHead_v3.forward P attn j1 [i0, i1, i2, i3]
      = ELAPFormerHead_v3.forward P attn j2 [i0, i1, i2, i3]) ∧
    (H.forward xs = H.forward xs) := by
  have hA : alignLevels P [i0, i1, i2, i3] =
      [P.convs 0 i0, P.interp (P.convs 1 i1) i1.spatial,
       P.interp (P.convs 2 i2) i1.spatial, P.interp (P.convs 3 i3) i1.spatial] := rfl
  have hA3 : alignLevelsAttn P attn [i0, i1, i2, i3] =
      [P.convs 0 i0, P.interp (P.convs 1 i1) i1.spatial,
       P.interp (P.convs 2 i2) i1.spatial, P.interp (P.convs 3 i3) i1.spatial] := rfl
  refine ⟨?_, ?_, rfl⟩
  · simp only [ELAPFormerHead.forward, hA]
    rw [ppfFuse_junk P true j1 j2]
  · simp only [ELAPFormerHead_v3.forward, hA3]
    rw [ppfFuse_junk P false j1 j2]

/-- C4: for every valid 4-level pyramid (common batch, spatial sizes in
ratio 1:2:4:8 finest to coarsest, arbitrary per-level channel counts) and
modules satisfying the external shape contracts (3x3/1x1 convolutions map to
the configured width at unchanged spatial size, SE is shape-preserving, the
resize primitive hits its target size, the classifier maps to `num_classes`),
both `ELAPFormerHead.forward` (v1) and `ELAPFormerHead_v3.forward` return a
tensor with the finest input level's spatial size and `num_classes`
channels. -/
theorem elap_output_shape (P : PPFParams) (channels numClasses b : Nat)
    (junk i0 i1 i2 i3 : FeatureMap) (attn : FeatureMap → FeatureMap)
    (hconv : ∀ idx, ChanMap (P.convs idx) channels)
    (hprj : ∀ idx, ChanMap (P.linear_projections idx) channels)
    (hsep : ∀ k, ChanMap (P.sep_conv k) channels)
    (hse : ShapePres P.se_module)
    (hfus : ChanMap P.fusion_conv channels)
    (hcls : ChanMap P.cls_seg numClasses)
    (hint : InterpShape P.interp)
    (hb0 : i0.batch = b) (hb1 : i1.batch = b) (hb2 : i2.batch = b) (hb3 : i3.batch = b)
    (hr1 : i0.height = 2 * i1.height) (hr2 : i0.width = 2 * i1.width)
    (hr3 : i1.height = 2 * i2.height) (hr4 : i1.width = 2 * i2.width)
    (hr5 : i2.height = 2 * i3.height) (hr6 : i2.width = 2 * i3.width) :
    ((ELAPFormerHead.forward P junk [i0, i1, i2, i3]).batch = b ∧
     (ELAPFormerHead.forward P junk [i0, i1, i2, i3]).chan = numClasses ∧
     (ELAPFormerHead.forward P junk [i0, i1, i2, i3]).height = i0.height ∧
     (ELAPFormerHead.forward P junk [i0, i1, i2, i3]).width = i0.width) ∧
    ((ELAPFormerHead_v3.forward P attn junk [i0, i1, i2, i3]).batch = b ∧
     (ELAPFormerHead_v3.forward P attn junk [i0, i1, i2, i3]).chan = numClasses ∧
     (ELAPFormerHead_v3.forward P attn junk [i0, i1, i2, i3]).height = i0.height ∧
     (ELAPFormerHead_v3.forward P attn junk [i0, i1, i2, i3]).width = i0.width) := by
  have hconvb : ∀ idx x, (P.convs idx x).batch = x.batch := fun idx x => (hconv idx x).1
  have hconvh : ∀ idx x, (P.convs idx x).height = x.height := fun idx x => (hconv idx x).2.2.1
  have hconvw : ∀ idx x, (P.convs idx x).width = x.width := fun idx x => (hconv idx x).2.2.2
  have hprjb : ∀ idx x, (P.linear_projections idx x).batch = x.batch :=
    fun idx x => (hprj idx x).1
  have hprjh : ∀ idx x, (P.linear_projections idx x).height = x.height :=
    fun idx x => (hprj idx x).2.2.1
  have hprjw : ∀ idx x, (P.linear_projections idx x).width = x.width :=
    fun idx x => (hprj idx x).2.2.2
  have hsepb : ∀ k x, (P.sep_conv k x).batch = x.batch := fun k x => (hsep k x).1
  have hseph : ∀ k x, (P.sep_conv k x).height = x.height := fun k x => (hsep k x).2.2.1
  have hsepw : ∀ k x, (P.sep_conv k x).width = x.width := fun k x => (hsep k x).2.2.2
  have hclsb : ∀ x, (P.cls_seg x).batch = x.batch := fun x => (hcls x).1
  have hclsc : ∀ x, (P.cls_seg x).chan = numClasses := fun x => (hcls x).2.1
  have hclsh : ∀ x, (P.cls_seg x).height = x.height := fun x => (hcls x).2.2.1
  have hclsw : ∀ x, (P.cls_seg x).width = x.width := fun x => (hcls x).2.2.2
  have hintb : ∀ x s, (P.interp x s).batch = x.batch := fun x s => (hint x s).1
  have hinth : ∀ x s, (P.interp x s).height = s.1 := fun x s => (hint x s).2.2.1
  have hintw : ∀ x s, (P.interp x s).width = s.2 := fun x s => (hint x s).2.2.2
  have hA : alignLevels P [i0, i1, i2, i3] =
      [P.convs 0 i0, P.interp (P.convs 1 i1) i1.spatial,
       P.interp (P.convs 2 i2) i1.spatial, P.interp (P.convs 3 i3) i1.spatial] := rfl
  have hA3 : alignLevelsAttn P attn [i0, i1, i2, i3] =
      [P.convs 0 i0, P.interp (P.convs 1 i1) i1.spatial,
       P.interp (P.convs 2 i2) i1.spatial, P.interp (P.convs 3 i3) i1.spatial] := rfl
  constructor
  · simp only [ELAPFormerHead.forward, hA]
    rw [ppfFuse_eq]
    simp [torchCat, FeatureMap.spatial, hconvb, hconvh, hconvw, hprjb, hprjh, hprjw,
      hsepb, hseph, hsepw, hclsb, hclsc, hclsh, hclsw, hintb, hinth, hintw, hb3]
  · simp only [ELAPFormerHead_v3.forward, hA3]
    rw [ppfFuse_eq]
    simp [torchCat, FeatureMap.spatial, hconvb, hconvh, hconvw, hprjb, hprjh, hprjw,
      hsepb, hseph, hsepw, hclsb, hclsc, hclsh, hclsw, hintb, hinth, hintw, hb3]

/-- C4 witness: the concrete scenario — channel counts [64,128,256,512],
channels=128, spatial sizes [(128,128),(64,64),(32,32),(16,16)],
num_classes=19 — produces a (1, 19, 128, 128) output from the v1 head. -/
theorem elap_output_shape_witness :
    (ELAPFormerHead.forward PcShape junkC
      [fm 1 64 128 128, fm 1 128 64 64, fm 1 256 32 32, fm 1 512 16 16]).batch = 1 ∧
    (ELAPFormerHead.forward PcShape junkC
      [fm 1 64 128 128, fm 1 128 64 64, fm 1 256 32 32, fm 1 512 16 16]).chan = 19 ∧
    (ELAPFormerHead.forward PcShape junkC
      [fm 1 64 128 128, fm 1 128 64 64, fm 1 256 32 32, fm 1 512 16 16]).height = 128 ∧
    (ELAPFormerHead.forward PcShape junkC
      [fm 1 64 128 128, fm 1 128 64 64, fm 1 256 32 32, fm 1 512 16 16]).width = 128 :=
  (elap_output_shape PcShape 128 19 1 junkC
    (fm 1 64 128 128) (fm 1 128 64 64) (fm 1 256 32 32) (fm 1 512 16 16) idMod
    (fun _ x => ⟨rfl, rfl, rfl, rfl⟩) (fun _ x => ⟨rfl, rfl, rfl, rfl⟩)
    (fun _ x => ⟨rfl, rfl, rfl, rfl⟩) (fun x => ⟨rfl, rfl, rfl, rfl⟩)
    (fun x => ⟨rfl, rfl, rfl, rfl⟩) (fun x => ⟨rfl, rfl, rfl, rfl⟩)
    (fun x s => ⟨rfl, rfl, rfl, rfl⟩)
    rfl rfl rfl rfl rfl rfl rfl rfl rfl rfl).1

end SunPolyp
